import Mathlib

/- Verification development for the gesture translator of the touchless-mouse
repository (src/translator.py).  Coordinates are modelled as real numbers,
Python list indexing as `List.getElem?` (an out-of-range access raises
`IndexError`, modelled by `none`), and the two translator methods as functions
returning the ordered list of OS input events they emit (`none` models an
uncaught exception, `some []` a call that returns without emitting anything). -/

open scoped Classical

noncomputable section

/-- One hand landmark: the `{"x": .., "y": .., "z": ..}` dictionaries built by
the translator from mediapipe landmarks. -/
structure Point where
  x : ℝ
  y : ℝ
  z : ℝ

instance : Inhabited Point := ⟨⟨0, 0, 0⟩⟩

/-- Embedding of `get_3d_distance` (src/translator.py lines 55-70): Euclidean
distance between two coordinates in 3-dimensional space. -/
def get_3d_distance (coord1 coord2 : Point) : ℝ :=
  Real.sqrt ((coord1.x - coord2.x) ^ 2 + (coord1.y - coord2.y) ^ 2 +
    (coord1.z - coord2.z) ^ 2)

/-- The named-point dictionary returned by `get_hand_coords`. -/
structure HandCoords where
  index : Point
  middle : Point
  ring : Point
  pinkie : Point
  thumb : Point
  palm : Point

/-- Embedding of `get_hand_coords` (src/translator.py lines 72-90).  The six
list accesses are performed in the source's evaluation order; an out-of-range
index yields `none` (Python `IndexError`). -/
def get_hand_coords (coords : List Point) : Option HandCoords := do
  let index ← coords[8]?
  let middle ← coords[12]?
  let ring ← coords[16]?
  let pinkie ← coords[20]?
  let thumb ← coords[4]?
  let palm ← coords[0]?
  pure ⟨index, middle, ring, pinkie, thumb, palm⟩

/-- Embedding of `is_shaking` (src/translator.py lines 92-109): all three axis
deltas of the palm are below the sensitivity. -/
def is_shaking (palm_coords past_palm_coords : Point) (shake_sensitivity : ℝ) : Prop :=
  |palm_coords.x - past_palm_coords.x| < shake_sensitivity ∧
  |palm_coords.y - past_palm_coords.y| < shake_sensitivity ∧
  |palm_coords.z - past_palm_coords.z| < shake_sensitivity

/-- Embedding of `is_fist` (src/translator.py lines 111-126).  Python's `and`
short-circuits, so a later out-of-range access is not performed once an
earlier conjunct is `False`; the access order within each conjunct is tip
first, then mid-joint, exactly as in the source. -/
def is_fist (coords : List Point) : Option Bool := do
  let itip ← coords[8]?
  let imid ← coords[6]?
  if itip.y ≤ imid.y then pure false else do
  let mtip ← coords[12]?
  let mmid ← coords[10]?
  if mtip.y ≤ mmid.y then pure false else do
  let rtip ← coords[16]?
  let rmid ← coords[14]?
  if rtip.y ≤ rmid.y then pure false else do
  let ptip ← coords[20]?
  let pmid ← coords[18]?
  if ptip.y ≤ pmid.y then pure false else pure true

/-- The four configuration fields of the `Translator` class. -/
structure Translator where
  distance_threshold : ℝ
  shake_sensitivity : ℝ
  mouse_sensitivity : ℝ
  scroll_sensitivity : ℝ

/-- Keyboard events emitted through the `keyboard` module. -/
inductive KAction where
  | press (key : String)
  | send (key : String)
  | release (key : String)
deriving DecidableEq

/-- Mouse events emitted through the `mouse` module.  `move` carries the
absolute target position passed to `mouse.move`. -/
inductive MAction where
  | click
  | right_click
  | wheel (amount : ℤ)
  | move (x y : ℝ)
deriving DecidableEq

/-- Python `int(..)` on a real value: truncation toward zero, as applied to
`self.scroll_sensitivity * (palm.y - past_palm.y)` on line 324. -/
def int_trunc (x : ℝ) : ℤ := if 0 ≤ x then ⌊x⌋ else ⌈x⌉

/-- The finger-release section of `translate_landmarks_to_keyboard_action`
(src/translator.py lines 225-255): the four falling-edge checks in priority
order index, middle, ring, pinkie, and the `elif` releasing `alt+tab` that is
attached to the final (pinkie) `if`. -/
def kbFingers (t : Translator) (itd mtd rtd ptd pitd pmtd prtd pptd : ℝ)
    (fist past_fist : Bool) : List KAction :=
  if ¬ itd ≤ t.distance_threshold ∧ pitd ≤ t.distance_threshold then
    [KAction.send "space"]
  else if ¬ mtd ≤ t.distance_threshold ∧ pmtd ≤ t.distance_threshold then
    [KAction.send "enter"]
  else if ¬ rtd ≤ t.distance_threshold ∧ prtd ≤ t.distance_threshold then
    [KAction.send "backspace"]
  else if ¬ ptd ≤ t.distance_threshold ∧ pptd ≤ t.distance_threshold then
    [KAction.send "escape"]
  else if fist = false ∧ past_fist = true then
    [KAction.release "alt+tab"]
  else []

/-- Body of `translate_landmarks_to_keyboard_action` after the landmark
extraction succeeded (src/translator.py lines 193-255).  The eight
finger-thumb distances are computed exactly as on lines 194-203; the fist
branch mirrors lines 207-223, with the fall-through into the finger section
when the palm is shaking (or, structurally, when none of the four exhaustive
palm comparisons fires). -/
def kbBody (t : Translator) (hand past_hand : HandCoords) (fist past_fist : Bool) :
    List KAction :=
  let itd := get_3d_distance hand.index hand.thumb
  let mtd := get_3d_distance hand.middle hand.thumb
  let rtd := get_3d_distance hand.ring hand.thumb
  let ptd := get_3d_distance hand.pinkie hand.thumb
  let pitd := get_3d_distance past_hand.index past_hand.thumb
  let pmtd := get_3d_distance past_hand.middle past_hand.thumb
  let prtd := get_3d_distance past_hand.ring past_hand.thumb
  let pptd := get_3d_distance past_hand.pinkie past_hand.thumb
  if fist then
    let pressed := if past_fist then ([] : List KAction) else [KAction.press "alt+tab"]
    if ¬ is_shaking hand.palm past_hand.palm (t.shake_sensitivity + 0.008) then
      if hand.palm.x ≤ past_hand.palm.x then pressed ++ [KAction.send "shift+tab"]
      else if hand.palm.x > past_hand.palm.x then pressed ++ [KAction.send "tab"]
      else if hand.palm.y ≤ past_hand.palm.y then pressed ++ [KAction.send "down arrow"]
      else if hand.palm.y > past_hand.palm.y then pressed ++ [KAction.send "up arrow"]
      else pressed ++ kbFingers t itd mtd rtd ptd pitd pmtd prtd pptd fist past_fist
    else pressed ++ kbFingers t itd mtd rtd ptd pitd pmtd prtd pptd fist past_fist
  else kbFingers t itd mtd rtd ptd pitd pmtd prtd pptd fist past_fist

/-- Embedding of `translate_landmarks_to_keyboard_action`
(src/translator.py lines 153-255).  Empty previous landmarks return without
any action (line 175); otherwise the named points and the two fist values are
extracted (any out-of-range access gives `none`) and the body runs. -/
def translate_landmarks_to_keyboard_action (t : Translator)
    (coords past_coords : List Point) : Option (List KAction) :=
  if past_coords.length = 0 then some []
  else do
    let hand_coords ← get_hand_coords coords
    let past_hand_coords ← get_hand_coords past_coords
    let fist ← is_fist coords
    let past_fist ← is_fist past_coords
    pure (kbBody t hand_coords past_hand_coords fist past_fist)

/-- Body of `translate_landmarks_to_mouse_action` after the landmark
extraction succeeded (src/translator.py lines 299-340): shake suppression,
fist disengage, left click, right click, scroll, cursor move, in that order. -/
def mouseBody (t : Translator) (hand : HandCoords) (past_palm : Point) (fist : Bool)
    (cursor_x cursor_y : ℝ) : List MAction :=
  let itd := get_3d_distance hand.index hand.thumb
  let mtd := get_3d_distance hand.middle hand.thumb
  let rtd := get_3d_distance hand.ring hand.thumb
  if is_shaking hand.palm past_palm t.shake_sensitivity then []
  else if fist then []
  else if itd ≤ t.distance_threshold then [MAction.click]
  else if rtd ≤ t.distance_threshold then [MAction.right_click]
  else if mtd ≤ t.distance_threshold then
    [MAction.wheel (-(int_trunc (t.scroll_sensitivity * (hand.palm.y - past_palm.y))))]
  else
    [MAction.move (cursor_x + t.mouse_sensitivity * (hand.palm.x - past_palm.x))
      (cursor_y + t.mouse_sensitivity * (hand.palm.y - past_palm.y))]

/-- Embedding of `translate_landmarks_to_mouse_action`
(src/translator.py lines 257-340).  Empty (or absent) previous landmarks
return without any action (line 278), before the cursor position is even
read; the cursor position obtained from `mouse.get_position()` is passed in
as the two extra arguments. -/
def translate_landmarks_to_mouse_action (t : Translator)
    (coords past_coords : List Point) (cursor_x cursor_y : ℝ) :
    Option (List MAction) :=
  if past_coords.length = 0 then some []
  else do
    let hand_coords ← get_hand_coords coords
    let past_palm_coords ← past_coords[0]?
    let fist ← is_fist coords
    pure (mouseBody t hand_coords past_palm_coords fist cursor_x cursor_y)

/-- The falling-edge condition of the keyboard channel for one fingertip:
its distance to the thumb exceeds the threshold now and did not previously. -/
def fingerEdge (t : Translator) (hand past_hand : HandCoords)
    (tip : HandCoords → Point) : Prop :=
  ¬ get_3d_distance (tip hand) hand.thumb ≤ t.distance_threshold ∧
    get_3d_distance (tip past_hand) past_hand.thumb ≤ t.distance_threshold

/- Helper lemmas about the embedded helpers. -/

theorem get_3d_distance_self (a : Point) : get_3d_distance a a = 0 := by
  simp [get_3d_distance]

theorem get_3d_distance_comm (a b : Point) :
    get_3d_distance a b = get_3d_distance b a := by
  unfold get_3d_distance
  ring_nf

theorem get_3d_distance_eq (a b : Point) (d : ℝ) (hd : 0 ≤ d)
    (h : (a.x - b.x) ^ 2 + (a.y - b.y) ^ 2 + (a.z - b.z) ^ 2 = d ^ 2) :
    get_3d_distance a b = d := by
  rw [get_3d_distance, h, Real.sqrt_sq hd]

theorem get_hand_coords_of_length (l : List Point) (h : l.length = 21) :
    get_hand_coords l = some ⟨l[8], l[12], l[16], l[20], l[4], l[0]⟩ := by
  have h8 : l[8]? = some l[8] := List.getElem?_eq_getElem (by omega)
  have h12 : l[12]? = some l[12] := List.getElem?_eq_getElem (by omega)
  have h16 : l[16]? = some l[16] := List.getElem?_eq_getElem (by omega)
  have h20 : l[20]? = some l[20] := List.getElem?_eq_getElem (by omega)
  have h4 : l[4]? = some l[4] := List.getElem?_eq_getElem (by omega)
  have h0 : l[0]? = some l[0] := List.getElem?_eq_getElem (by omega)
  simp [get_hand_coords, h8, h12, h16, h20, h4, h0]

theorem get_hand_coords_eq_none (l : List Point) (h : l.length < 21) :
    get_hand_coords l = none := by
  have h20 : l[20]? = none := List.getElem?_eq_none (by omega)
  rcases h8 : l[8]? with _ | p8
  · simp [get_hand_coords, h8]
  rcases h12 : l[12]? with _ | p12
  · simp [get_hand_coords, h8, h12]
  rcases h16 : l[16]? with _ | p16
  · simp [get_hand_coords, h8, h12, h16]
  simp [get_hand_coords, h8, h12, h16, h20]

theorem length_of_get_hand_coords (l : List Point) (hand : HandCoords)
    (hh : get_hand_coords l = some hand) : 21 ≤ l.length := by
  by_contra hlt
  rw [get_hand_coords_eq_none l (by omega)] at hh
  exact Option.noConfusion hh

theorem is_fist_eq_true_iff (l : List Point) (h : 21 ≤ l.length) :
    is_fist l = some true ↔
      (l[6].y < l[8].y ∧ l[10].y < l[12].y ∧ l[14].y < l[16].y ∧ l[18].y < l[20].y) := by
  have h8 : l[8]? = some l[8] := List.getElem?_eq_getElem (by omega)
  have h6 : l[6]? = some l[6] := List.getElem?_eq_getElem (by omega)
  have h12 : l[12]? = some l[12] := List.getElem?_eq_getElem (by omega)
  have h10 : l[10]? = some l[10] := List.getElem?_eq_getElem (by omega)
  have h16 : l[16]? = some l[16] := List.getElem?_eq_getElem (by omega)
  have h14 : l[14]? = some l[14] := List.getElem?_eq_getElem (by omega)
  have h20 : l[20]? = some l[20] := List.getElem?_eq_getElem (by omega)
  have h18 : l[18]? = some l[18] := List.getElem?_eq_getElem (by omega)
  simp only [is_fist, h8, h6, h12, h10, h16, h14, h20, h18, Option.bind_eq_bind,
    Option.some_bind]
  split_ifs with h1 h2 h3 h4
  · exact iff_of_false (by simp) fun hc => absurd hc.1 (not_lt.mpr h1)
  · exact iff_of_false (by simp) fun hc => absurd hc.2.1 (not_lt.mpr h2)
  · exact iff_of_false (by simp) fun hc => absurd hc.2.2.1 (not_lt.mpr h3)
  · exact iff_of_false (by simp) fun hc => absurd hc.2.2.2 (not_lt.mpr h4)
  · exact iff_of_true rfl ⟨not_le.mp h1, not_le.mp h2, not_le.mp h3, not_le.mp h4⟩

theorem is_fist_isSome (l : List Point) (h : 21 ≤ l.length) :
    ∃ b : Bool, is_fist l = some b := by
  have h8 : l[8]? = some l[8] := List.getElem?_eq_getElem (by omega)
  have h6 : l[6]? = some l[6] := List.getElem?_eq_getElem (by omega)
  have h12 : l[12]? = some l[12] := List.getElem?_eq_getElem (by omega)
  have h10 : l[10]? = some l[10] := List.getElem?_eq_getElem (by omega)
  have h16 : l[16]? = some l[16] := List.getElem?_eq_getElem (by omega)
  have h14 : l[14]? = some l[14] := List.getElem?_eq_getElem (by omega)
  have h20 : l[20]? = some l[20] := List.getElem?_eq_getElem (by omega)
  have h18 : l[18]? = some l[18] := List.getElem?_eq_getElem (by omega)
  simp only [is_fist, h8, h6, h12, h10, h16, h14, h20, h18, Option.bind_eq_bind,
    Option.some_bind]
  split_ifs <;> exact ⟨_, rfl⟩

theorem is_fist_eq_false_iff (l : List Point) (h : 21 ≤ l.length) :
    is_fist l = some false ↔
      ¬ (l[6].y < l[8].y ∧ l[10].y < l[12].y ∧ l[14].y < l[16].y ∧ l[18].y < l[20].y) := by
  obtain ⟨b, hb⟩ := is_fist_isSome l h
  rcases b with _ | _
  · have ht : ¬ is_fist l = some true := by
      rw [hb]; simp
    rw [hb]
    simpa [hb] using fun hP => ht ((is_fist_eq_true_iff l h).mpr hP)
  · have := (is_fist_eq_true_iff l h).mp hb
    rw [hb]
    simp [this]

theorem keyboard_eq (t : Translator) (l pl : List Point) (hand phand : HandCoords)
    (fist pfist : Bool) (hh : get_hand_coords l = some hand)
    (hph : get_hand_coords pl = some phand) (hf : is_fist l = some fist)
    (hpf : is_fist pl = some pfist) :
    translate_landmarks_to_keyboard_action t l pl =
      some (kbBody t hand phand fist pfist) := by
  have hlen : ¬ pl.length = 0 := by
    have := length_of_get_hand_coords pl phand hph
    omega
  simp [translate_landmarks_to_keyboard_action, hlen, hh, hph, hf, hpf]

theorem mouse_eq (t : Translator) (l pl : List Point) (hand : HandCoords)
    (pp : Point) (fist : Bool) (cursor_x cursor_y : ℝ)
    (hh : get_hand_coords l = some hand) (hpp : pl[0]? = some pp)
    (hf : is_fist l = some fist) :
    translate_landmarks_to_mouse_action t l pl cursor_x cursor_y =
      some (mouseBody t hand pp fist cursor_x cursor_y) := by
  have hlen : ¬ pl.length = 0 := by
    obtain ⟨hlt, -⟩ := List.getElem?_eq_some_iff.mp hpp
    omega
  simp [translate_landmarks_to_mouse_action, hlen, hh, hpp, hf]

/-- A 21-point skeleton with the given palm, thumb tip, mid-joints and
fingertips at the anatomical indices used by the translator (0, 4, 6, 8, 10,
12, 14, 16, 18, 20); the remaining landmarks sit at the origin. -/
def mkHand (palm thumb imid itip mmid mtip rmid rtip pmid ptip : Point) :
    List Point :=
  [palm, ⟨0, 0, 0⟩, ⟨0, 0, 0⟩, ⟨0, 0, 0⟩, thumb, ⟨0, 0, 0⟩,
   imid, ⟨0, 0, 0⟩, itip, ⟨0, 0, 0⟩,
   mmid, ⟨0, 0, 0⟩, mtip, ⟨0, 0, 0⟩,
   rmid, ⟨0, 0, 0⟩, rtip, ⟨0, 0, 0⟩,
   pmid, ⟨0, 0, 0⟩, ptip]

theorem mkHand_length (palm thumb imid itip mmid mtip rmid rtip pmid ptip : Point) :
    (mkHand palm thumb imid itip mmid mtip rmid rtip pmid ptip).length = 21 := rfl

theorem get_hand_coords_mkHand
    (palm thumb imid itip mmid mtip rmid rtip pmid ptip : Point) :
    get_hand_coords (mkHand palm thumb imid itip mmid mtip rmid rtip pmid ptip) =
      some ⟨itip, mtip, rtip, ptip, thumb, palm⟩ := rfl

theorem getElem_zero_mkHand
    (palm thumb imid itip mmid mtip rmid rtip pmid ptip : Point) :
    (mkHand palm thumb imid itip mmid mtip rmid rtip pmid ptip)[0]? = some palm := rfl

theorem is_fist_mkHand (palm thumb imid itip mmid mtip rmid rtip pmid ptip : Point) :
    is_fist (mkHand palm thumb imid itip mmid mtip rmid rtip pmid ptip) =
      some (if itip.y ≤ imid.y then false
        else if mtip.y ≤ mmid.y then false
        else if rtip.y ≤ rmid.y then false
        else if ptip.y ≤ pmid.y then false else true) := by
  simp only [is_fist, mkHand]
  norm_num [List.getElem?_cons_zero, List.getElem?_cons_succ]
  split_ifs with h1 h2 h3 h4 <;> simp_all

/- Claim theorems. -/

/-- C10: `get_3d_distance` vanishes on equal points and is symmetric in its
two arguments. -/
theorem c10_distance_zero_and_symmetric (a b : Point) :
    get_3d_distance a a = 0 ∧ get_3d_distance a b = get_3d_distance b a :=
  ⟨get_3d_distance_self a, get_3d_distance_comm a b⟩

/-- C7: a call of either translate method with an empty previous landmark
list returns immediately, produces no keyboard or mouse action, and is a
normal no-action return rather than a failure. -/
theorem c7_empty_previous_no_action (t : Translator) (l : List Point)
    (cursor_x cursor_y : ℝ) :
    translate_landmarks_to_keyboard_action t l [] = some [] ∧
    translate_landmarks_to_mouse_action t l [] cursor_x cursor_y = some [] := by
  constructor
  · simp [translate_landmarks_to_keyboard_action]
  · simp [translate_landmarks_to_mouse_action]

/-- C8: on a 21-point skeleton, `is_fist` is true exactly when all four
non-thumb fingertips (indices 8, 12, 16, 20) have strictly greater y than
their mid-joints (indices 6, 10, 14, 18); the thumb landmark (index 4) plays
no role; and whenever any finger fails its strict comparison (three curled
plus one extended included) the result is `False`. -/
theorem c8_is_fist_characterization (l : List Point) (h : l.length = 21) :
    (is_fist l = some true ↔
      (l[6].y < l[8].y ∧ l[10].y < l[12].y ∧ l[14].y < l[16].y ∧ l[18].y < l[20].y)) ∧
    (∀ q : Point, is_fist (l.set 4 q) = is_fist l) ∧
    (¬ (l[6].y < l[8].y ∧ l[10].y < l[12].y ∧ l[14].y < l[16].y ∧ l[18].y < l[20].y) →
      is_fist l = some false) := by
  refine ⟨is_fist_eq_true_iff l (by omega), fun q => ?_, fun hn =>
    (is_fist_eq_false_iff l (by omega)).mpr hn⟩
  have e8 : (l.set 4 q)[8]? = l[8]? := List.getElem?_set_ne (by omega)
  have e6 : (l.set 4 q)[6]? = l[6]? := List.getElem?_set_ne (by omega)
  have e12 : (l.set 4 q)[12]? = l[12]? := List.getElem?_set_ne (by omega)
  have e10 : (l.set 4 q)[10]? = l[10]? := List.getElem?_set_ne (by omega)
  have e16 : (l.set 4 q)[16]? = l[16]? := List.getElem?_set_ne (by omega)
  have e14 : (l.set 4 q)[14]? = l[14]? := List.getElem?_set_ne (by omega)
  have e20 : (l.set 4 q)[20]? = l[20]? := List.getElem?_set_ne (by omega)
  have e18 : (l.set 4 q)[18]? = l[18]? := List.getElem?_set_ne (by omega)
  simp only [is_fist, e8, e6, e12, e10, e16, e14, e20, e18]

/-- C2: with a valid previous skeleton and a current skeleton that is not a
fist, the keyboard channel emits exactly the key of the first finger with a
falling edge, in the priority order index, middle, ring, pinkie, and returns;
when no finger has a falling edge, no `send` at all is emitted. -/
theorem c2_finger_release_priority (t : Translator) (l pl : List Point)
    (hand phand : HandCoords) (pfist : Bool)
    (hh : get_hand_coords l = some hand) (hph : get_hand_coords pl = some phand)
    (hf : is_fist l = some false) (hpf : is_fist pl = some pfist) :
    translate_landmarks_to_keyboard_action t l pl =
      some (if fingerEdge t hand phand HandCoords.index then [KAction.send "space"]
        else if fingerEdge t hand phand HandCoords.middle then [KAction.send "enter"]
        else if fingerEdge t hand phand HandCoords.ring then [KAction.send "backspace"]
        else if fingerEdge t hand phand HandCoords.pinkie then [KAction.send "escape"]
        else if pfist = true then [KAction.release "alt+tab"] else []) ∧
    (¬ fingerEdge t hand phand HandCoords.index →
      ¬ fingerEdge t hand phand HandCoords.middle →
      ¬ fingerEdge t hand phand HandCoords.ring →
      ¬ fingerEdge t hand phand HandCoords.pinkie →
      ∀ acts, translate_landmarks_to_keyboard_action t l pl = some acts →
        ∀ k : String, KAction.send k ∉ acts) := by
  have heq : translate_landmarks_to_keyboard_action t l pl =
      some (if fingerEdge t hand phand HandCoords.index then [KAction.send "space"]
        else if fingerEdge t hand phand HandCoords.middle then [KAction.send "enter"]
        else if fingerEdge t hand phand HandCoords.ring then [KAction.send "backspace"]
        else if fingerEdge t hand phand HandCoords.pinkie then [KAction.send "escape"]
        else if pfist = true then [KAction.release "alt+tab"] else []) := by
    rw [keyboard_eq t l pl hand phand false pfist hh hph hf hpf]
    simp only [kbBody, kbFingers, fingerEdge, Bool.false_eq_true, if_false]
    split_ifs <;> simp_all
  refine ⟨heq, fun h1 h2 h3 h4 acts hacts k => ?_⟩
  rw [heq] at hacts
  rw [if_neg h1, if_neg h2, if_neg h3, if_neg h4] at hacts
  injection hacts with h
  subst h
  rcases pfist <;> simp

/-- C6: with a valid previous skeleton, a current fist, and a palm that is
not shaking under the loosened threshold `shake_sensitivity + 0.008`, the
keyboard channel emits exactly one directional send after the possible
`alt+tab` press, and that send is `shift+tab` when palm.x decreased or held
and `tab` otherwise; the vertical branches are never reached. -/
theorem c6_fist_navigation (t : Translator) (l pl : List Point)
    (hand phand : HandCoords) (pfist : Bool)
    (hh : get_hand_coords l = some hand) (hph : get_hand_coords pl = some phand)
    (hf : is_fist l = some true) (hpf : is_fist pl = some pfist)
    (hs : ¬ is_shaking hand.palm phand.palm (t.shake_sensitivity + 0.008)) :
    translate_landmarks_to_keyboard_action t l pl =
      some ((if pfist = true then [] else [KAction.press "alt+tab"]) ++
        [KAction.send (if hand.palm.x ≤ phand.palm.x then "shift+tab" else "tab")]) := by
  rw [keyboard_eq t l pl hand phand true pfist hh hph hf hpf]
  by_cases hx : hand.palm.x ≤ phand.palm.x
  · simp [kbBody, hs, hx]
  · simp [kbBody, hs, hx, not_le.mp hx]

/-- C1 (amended): the four finger-release keys are never emitted while the
current skeleton is a fist and the palm is not shaking under the loosened
threshold; (the original claim, that a fist alone suppresses them, fails when
the palm is shaking and the fist branch falls through). -/
theorem c1_amended_fist_blocks_finger_keys (t : Translator) (l pl : List Point)
    (hand phand : HandCoords) (pfist : Bool)
    (hh : get_hand_coords l = some hand) (hph : get_hand_coords pl = some phand)
    (hf : is_fist l = some true) (hpf : is_fist pl = some pfist)
    (hs : ¬ is_shaking hand.palm phand.palm (t.shake_sensitivity + 0.008)) :
    ∀ acts, translate_landmarks_to_keyboard_action t l pl = some acts →
      KAction.send "space" ∉ acts ∧ KAction.send "enter" ∉ acts ∧
      KAction.send "backspace" ∉ acts ∧ KAction.send "escape" ∉ acts := by
  intro acts hacts
  rw [keyboard_eq t l pl hand phand true pfist hh hph hf hpf] at hacts
  injection hacts with h
  subst h
  by_cases hx : hand.palm.x ≤ phand.palm.x
  · rcases pfist <;> simp [kbBody, hs, hx]
  · rcases pfist <;> simp [kbBody, hs, hx, not_le.mp hx]

theorem kbFingers_count_press (t : Translator)
    (itd mtd rtd ptd pitd pmtd prtd pptd : ℝ) (fist pfist : Bool) :
    (kbFingers t itd mtd rtd ptd pitd pmtd prtd pptd fist pfist).count
      (KAction.press "alt+tab") = 0 := by
  unfold kbFingers
  split_ifs <;> rfl

theorem kbFingers_count_release (t : Translator)
    (itd mtd rtd ptd pitd pmtd prtd pptd : ℝ) (fist pfist : Bool) :
    (kbFingers t itd mtd rtd ptd pitd pmtd prtd pptd fist pfist).count
      (KAction.release "alt+tab") =
      (if fist = false ∧ pfist = true ∧
          ¬ (¬ itd ≤ t.distance_threshold ∧ pitd ≤ t.distance_threshold) ∧
          ¬ (¬ mtd ≤ t.distance_threshold ∧ pmtd ≤ t.distance_threshold) ∧
          ¬ (¬ rtd ≤ t.distance_threshold ∧ prtd ≤ t.distance_threshold) ∧
          ¬ (¬ ptd ≤ t.distance_threshold ∧ pptd ≤ t.distance_threshold)
        then 1 else 0) := by
  unfold kbFingers
  split_ifs with e1 e2 e3 e4 e5 <;> simp_all

theorem kbBody_count_press (t : Translator) (hand phand : HandCoords)
    (fist pfist : Bool) :
    (kbBody t hand phand fist pfist).count (KAction.press "alt+tab") =
      (if fist = true ∧ pfist = false then 1 else 0) := by
  rcases fist <;> rcases pfist <;>
    simp [kbBody, List.count_append, kbFingers_count_press] <;>
    split_ifs <;>
    simp [List.count_append, kbFingers_count_press]

theorem kbBody_count_release (t : Translator) (hand phand : HandCoords)
    (fist pfist : Bool) :
    (kbBody t hand phand fist pfist).count (KAction.release "alt+tab") =
      (if fist = false ∧ pfist = true ∧
          ¬ fingerEdge t hand phand HandCoords.index ∧
          ¬ fingerEdge t hand phand HandCoords.middle ∧
          ¬ fingerEdge t hand phand HandCoords.ring ∧
          ¬ fingerEdge t hand phand HandCoords.pinkie then 1 else 0) := by
  rcases fist
  · have h : kbBody t hand phand false pfist =
        kbFingers t (get_3d_distance hand.index hand.thumb)
          (get_3d_distance hand.middle hand.thumb)
          (get_3d_distance hand.ring hand.thumb)
          (get_3d_distance hand.pinkie hand.thumb)
          (get_3d_distance phand.index phand.thumb)
          (get_3d_distance phand.middle phand.thumb)
          (get_3d_distance phand.ring phand.thumb)
          (get_3d_distance phand.pinkie phand.thumb) false pfist := by
      simp [kbBody]
    rw [h, kbFingers_count_release]
    exact if_congr Iff.rfl rfl rfl
  · rw [if_neg (by simp)]
    have hf0 : ∀ a b c d e f g h : ℝ,
        (kbFingers t a b c d e f g h true pfist).count (KAction.release "alt+tab") = 0 := by
      intro a b c d e f g h
      rw [kbFingers_count_release]
      simp
    have hp0 : (if pfist = true then ([] : List KAction)
        else [KAction.press "alt+tab"]).count (KAction.release "alt+tab") = 0 := by
      rcases pfist <;> rfl
    simp only [kbBody]
    split_ifs <;> simp [List.count_append, hp0, hf0]

/-- C5: with a valid previous skeleton, `press "alt+tab"` is emitted exactly
once when the current skeleton is a fist and the previous one is not, and
`release "alt+tab"` is emitted exactly once when the current skeleton is not
a fist, the previous one is, and no finger-release key fired earlier in the
same call; in every other situation neither latch event is emitted. -/
theorem c5_alt_tab_latch (t : Translator) (l pl : List Point)
    (hand phand : HandCoords) (fist pfist : Bool)
    (hh : get_hand_coords l = some hand) (hph : get_hand_coords pl = some phand)
    (hf : is_fist l = some fist) (hpf : is_fist pl = some pfist) :
    ∃ acts, translate_landmarks_to_keyboard_action t l pl = some acts ∧
      acts.count (KAction.press "alt+tab") =
        (if fist = true ∧ pfist = false then 1 else 0) ∧
      acts.count (KAction.release "alt+tab") =
        (if fist = false ∧ pfist = true ∧
            ¬ fingerEdge t hand phand HandCoords.index ∧
            ¬ fingerEdge t hand phand HandCoords.middle ∧
            ¬ fingerEdge t hand phand HandCoords.ring ∧
            ¬ fingerEdge t hand phand HandCoords.pinkie then 1 else 0) :=
  ⟨kbBody t hand phand fist pfist,
    keyboard_eq t l pl hand phand fist pfist hh hph hf hpf,
    kbBody_count_press t hand phand fist pfist,
    kbBody_count_release t hand phand fist pfist⟩

/-- C3: with a non-empty previous skeleton the mouse channel produces at most
one action, chosen by the fixed cascade shake-suppression, fist, left click
(index), right click (ring), scroll (middle), cursor move; the click and
scroll tests read only the current distances, and the move target adds the
scaled palm delta to the cursor position supplied by the OS. -/
theorem c3_mouse_priority (t : Translator) (l pl : List Point)
    (hand : HandCoords) (pp : Point) (fist : Bool) (cursor_x cursor_y : ℝ)
    (hh : get_hand_coords l = some hand) (hpp : pl[0]? = some pp)
    (hf : is_fist l = some fist) :
    translate_landmarks_to_mouse_action t l pl cursor_x cursor_y =
      some (if is_shaking hand.palm pp t.shake_sensitivity then []
        else if fist = true then []
        else if get_3d_distance hand.index hand.thumb ≤ t.distance_threshold then
          [MAction.click]
        else if get_3d_distance hand.ring hand.thumb ≤ t.distance_threshold then
          [MAction.right_click]
        else if get_3d_distance hand.middle hand.thumb ≤ t.distance_threshold then
          [MAction.wheel (-(int_trunc (t.scroll_sensitivity * (hand.palm.y - pp.y))))]
        else [MAction.move (cursor_x + t.mouse_sensitivity * (hand.palm.x - pp.x))
          (cursor_y + t.mouse_sensitivity * (hand.palm.y - pp.y))]) ∧
    (∀ acts, translate_landmarks_to_mouse_action t l pl cursor_x cursor_y = some acts →
      acts.length ≤ 1) := by
  have heq := mouse_eq t l pl hand pp fist cursor_x cursor_y hh hpp hf
  constructor
  · rw [heq]
    rfl
  · intro acts hacts
    rw [heq] at hacts
    injection hacts with h
    subst h
    simp only [mouseBody]
    split_ifs <;> simp

/-- C4 (amended): in the scroll branch (previous non-empty, not shaking,
current not a fist, index and ring away from the thumb, middle touching the
thumb) the emitted amount is minus the truncation toward zero (Python
`int(..)`) of scrollSensitivity times the palm's y-delta, and no cursor move
happens; the original claim said rounding, which disagrees with truncation
whenever the product has fractional part at least one half. -/
theorem c4_amended_scroll_amount (t : Translator) (l pl : List Point)
    (hand : HandCoords) (pp : Point) (cursor_x cursor_y : ℝ)
    (hh : get_hand_coords l = some hand) (hpp : pl[0]? = some pp)
    (hf : is_fist l = some false)
    (hns : ¬ is_shaking hand.palm pp t.shake_sensitivity)
    (hi : ¬ get_3d_distance hand.index hand.thumb ≤ t.distance_threshold)
    (hr : ¬ get_3d_distance hand.ring hand.thumb ≤ t.distance_threshold)
    (hm : get_3d_distance hand.middle hand.thumb ≤ t.distance_threshold) :
    translate_landmarks_to_mouse_action t l pl cursor_x cursor_y =
      some [MAction.wheel (-(int_trunc (t.scroll_sensitivity * (hand.palm.y - pp.y))))] := by
  rw [mouse_eq t l pl hand pp false cursor_x cursor_y hh hpp hf]
  simp [mouseBody, hns, hi, hr, hm]

/-- C9 (amended): when the current skeleton has 21 points and the previous
one has 21 or 0, every landmark access performed by the two translate
methods is in bounds and the error branch of the embedding is unreachable;
`get_hand_coords` is undefined on any skeleton with fewer than 21 points
(while `is_fist` may short-circuit before its out-of-range access). -/
theorem c9_amended_index_safety (t : Translator) (l pl : List Point)
    (cursor_x cursor_y : ℝ) (h : l.length = 21)
    (hp : pl.length = 21 ∨ pl.length = 0) :
    (translate_landmarks_to_keyboard_action t l pl).isSome ∧
    (translate_landmarks_to_mouse_action t l pl cursor_x cursor_y).isSome ∧
    (∀ m : List Point, m.length < 21 → get_hand_coords m = none) := by
  refine ⟨?_, ?_, fun m hm => get_hand_coords_eq_none m hm⟩
  · rcases hp with hp | hp
    · obtain ⟨f, hfs⟩ := is_fist_isSome l (by omega)
      obtain ⟨pf, hpfs⟩ := is_fist_isSome pl (by omega)
      rw [keyboard_eq t l pl _ _ f pf (get_hand_coords_of_length l h)
        (get_hand_coords_of_length pl hp) hfs hpfs]
      rfl
    · simp [translate_landmarks_to_keyboard_action, hp]
  · rcases hp with hp | hp
    · obtain ⟨f, hfs⟩ := is_fist_isSome l (by omega)
      have hpp : pl[0]? = some pl[0] := List.getElem?_eq_getElem (by omega)
      rw [mouse_eq t l pl _ _ f cursor_x cursor_y (get_hand_coords_of_length l h)
        hpp hfs]
      rfl
    · simp [translate_landmarks_to_mouse_action, hp]

/-- A malformed 9-point skeleton whose index fingertip is above its mid
joint. -/
def shortSkel : List Point :=
  [⟨0, 0, 0⟩, ⟨0, 0, 0⟩, ⟨0, 0, 0⟩, ⟨0, 0, 0⟩, ⟨0, 0, 0⟩, ⟨0, 0, 0⟩,
   ⟨0, 0.9, 0⟩, ⟨0, 0, 0⟩, ⟨0, 0.1, 0⟩]

/-- C9 (counterexample): the claim that the geometry predicates are undefined
on every skeleton with fewer than 21 points fails for `is_fist`, which
short-circuits: on this 9-point skeleton it returns `False` without ever
reaching index 20. -/
theorem c9_counterexample_is_fist_short_skeleton :
    shortSkel.length < 21 ∧ is_fist shortSkel = some false := by
  constructor
  · norm_num [shortSkel]
  · simp only [is_fist, shortSkel]
    norm_num [List.getElem?_cons_zero, List.getElem?_cons_succ]

/- Concrete scenario data: a sample configuration and skeletons realising the
scenarios of the specification.  Fingertips are placed at z-offsets from the
thumb so that finger-thumb distances are exact integers. -/

/-- Sample configuration: distance threshold 0.06, shake sensitivity 0.01,
mouse sensitivity 8, scroll sensitivity 200. -/
def cT : Translator := ⟨0.06, 0.01, 8, 200⟩

/-- A fist at palm x = 0.5: all fingertips (y 0.8) below their mid-joints
(y 0.7), fingertips 1..4 units away from the thumb in z. -/
def skelFist : List Point :=
  mkHand ⟨0.5, 0.5, 0⟩ ⟨0.2, 0.8, 0⟩ ⟨0.3, 0.7, 0⟩ ⟨0.2, 0.8, 1⟩ ⟨0.4, 0.7, 0⟩
    ⟨0.2, 0.8, 2⟩ ⟨0.5, 0.7, 0⟩ ⟨0.2, 0.8, 3⟩ ⟨0.6, 0.7, 0⟩ ⟨0.2, 0.8, 4⟩

/-- An open hand at the same palm: fingertips (y 0.2) above their mid-joints
(y 0.7). -/
def skelOpen : List Point :=
  mkHand ⟨0.5, 0.5, 0⟩ ⟨0.2, 0.8, 0⟩ ⟨0.3, 0.7, 0⟩ ⟨0.2, 0.2, 1⟩ ⟨0.4, 0.7, 0⟩
    ⟨0.2, 0.2, 2⟩ ⟨0.5, 0.7, 0⟩ ⟨0.2, 0.2, 3⟩ ⟨0.6, 0.7, 0⟩ ⟨0.2, 0.2, 4⟩

/-- The fist of `skelFist` with the palm moved left to x = 0.3. -/
def skelFistLeft : List Point :=
  mkHand ⟨0.3, 0.5, 0⟩ ⟨0.2, 0.8, 0⟩ ⟨0.3, 0.7, 0⟩ ⟨0.2, 0.8, 1⟩ ⟨0.4, 0.7, 0⟩
    ⟨0.2, 0.8, 2⟩ ⟨0.5, 0.7, 0⟩ ⟨0.2, 0.8, 3⟩ ⟨0.6, 0.7, 0⟩ ⟨0.2, 0.8, 4⟩

/-- The fist of `skelFist` with the index fingertip touching the thumb. -/
def skelFistTouch : List Point :=
  mkHand ⟨0.5, 0.5, 0⟩ ⟨0.2, 0.8, 0⟩ ⟨0.3, 0.7, 0⟩ ⟨0.2, 0.8, 0⟩ ⟨0.4, 0.7, 0⟩
    ⟨0.2, 0.8, 2⟩ ⟨0.5, 0.7, 0⟩ ⟨0.2, 0.8, 3⟩ ⟨0.6, 0.7, 0⟩ ⟨0.2, 0.8, 4⟩

/-- An open (not-fist) hand whose index fingertip is one unit away from the
thumb, middle 2, ring 3, pinkie 4. -/
def skelOpenFar : List Point :=
  mkHand ⟨0.5, 0.5, 0⟩ ⟨0.5, 0.9, 0⟩ ⟨0.3, 0.9, 0⟩ ⟨0.5, 0.9, 1⟩ ⟨0.4, 0.9, 0⟩
    ⟨0.5, 0.9, 2⟩ ⟨0.5, 0.9, 0⟩ ⟨0.5, 0.9, 3⟩ ⟨0.6, 0.9, 0⟩ ⟨0.5, 0.9, 4⟩

/-- The hand of `skelOpenFar` with the index fingertip touching the thumb. -/
def skelOpenTouch : List Point :=
  mkHand ⟨0.5, 0.5, 0⟩ ⟨0.5, 0.9, 0⟩ ⟨0.3, 0.9, 0⟩ ⟨0.5, 0.9, 0⟩ ⟨0.4, 0.9, 0⟩
    ⟨0.5, 0.9, 2⟩ ⟨0.5, 0.9, 0⟩ ⟨0.5, 0.9, 3⟩ ⟨0.6, 0.9, 0⟩ ⟨0.5, 0.9, 4⟩

/-- The hand of `skelOpenFar` with the palm moved to (0.7, 0.4). -/
def skelMouseMove : List Point :=
  mkHand ⟨0.7, 0.4, 0⟩ ⟨0.5, 0.9, 0⟩ ⟨0.3, 0.9, 0⟩ ⟨0.5, 0.9, 1⟩ ⟨0.4, 0.9, 0⟩
    ⟨0.5, 0.9, 2⟩ ⟨0.5, 0.9, 0⟩ ⟨0.5, 0.9, 3⟩ ⟨0.6, 0.9, 0⟩ ⟨0.5, 0.9, 4⟩

/-- An open hand with the middle fingertip touching the thumb and the palm at
(0.5, 0.49): the palm moved down by 0.01 relative to `skelOpenFar`. -/
def skelScroll : List Point :=
  mkHand ⟨0.5, 0.49, 0⟩ ⟨0.5, 0.9, 0⟩ ⟨0.3, 0.9, 0⟩ ⟨0.5, 0.9, 1⟩ ⟨0.4, 0.9, 0⟩
    ⟨0.5, 0.9, 0⟩ ⟨0.5, 0.9, 0⟩ ⟨0.5, 0.9, 3⟩ ⟨0.6, 0.9, 0⟩ ⟨0.5, 0.9, 4⟩

/-- An open hand with the middle fingertip touching the thumb and the palm at
(0.6, 0.5085): a y-delta of 0.0085 relative to `skelOpenFar`. -/
def skelScrollX : List Point :=
  mkHand ⟨0.6, 0.5085, 0⟩ ⟨0.5, 0.9, 0⟩ ⟨0.3, 0.9, 0⟩ ⟨0.5, 0.9, 1⟩ ⟨0.4, 0.9, 0⟩
    ⟨0.5, 0.9, 0⟩ ⟨0.5, 0.9, 0⟩ ⟨0.5, 0.9, 3⟩ ⟨0.6, 0.9, 0⟩ ⟨0.5, 0.9, 4⟩

theorem is_fist_skelFist : is_fist skelFist = some true := by
  norm_num [skelFist, is_fist_mkHand]

theorem is_fist_skelOpen : is_fist skelOpen = some false := by
  norm_num [skelOpen, is_fist_mkHand]

theorem is_fist_skelFistLeft : is_fist skelFistLeft = some true := by
  norm_num [skelFistLeft, is_fist_mkHand]

theorem is_fist_skelFistTouch : is_fist skelFistTouch = some true := by
  norm_num [skelFistTouch, is_fist_mkHand]

theorem is_fist_skelOpenFar : is_fist skelOpenFar = some false := by
  norm_num [skelOpenFar, is_fist_mkHand]

theorem is_fist_skelOpenTouch : is_fist skelOpenTouch = some false := by
  norm_num [skelOpenTouch, is_fist_mkHand]

theorem is_fist_skelMouseMove : is_fist skelMouseMove = some false := by
  norm_num [skelMouseMove, is_fist_mkHand]

theorem is_fist_skelScroll : is_fist skelScroll = some false := by
  norm_num [skelScroll, is_fist_mkHand]

theorem is_fist_skelScrollX : is_fist skelScrollX = some false := by
  norm_num [skelScrollX, is_fist_mkHand]

/-- The named points of `skelFist`. -/
def handFist : HandCoords :=
  ⟨⟨0.2, 0.8, 1⟩, ⟨0.2, 0.8, 2⟩, ⟨0.2, 0.8, 3⟩, ⟨0.2, 0.8, 4⟩, ⟨0.2, 0.8, 0⟩,
    ⟨0.5, 0.5, 0⟩⟩

/-- The named points of `skelOpen`. -/
def handOpen : HandCoords :=
  ⟨⟨0.2, 0.2, 1⟩, ⟨0.2, 0.2, 2⟩, ⟨0.2, 0.2, 3⟩, ⟨0.2, 0.2, 4⟩, ⟨0.2, 0.8, 0⟩,
    ⟨0.5, 0.5, 0⟩⟩

/-- The named points of `skelFistLeft`. -/
def handFistLeft : HandCoords :=
  ⟨⟨0.2, 0.8, 1⟩, ⟨0.2, 0.8, 2⟩, ⟨0.2, 0.8, 3⟩, ⟨0.2, 0.8, 4⟩, ⟨0.2, 0.8, 0⟩,
    ⟨0.3, 0.5, 0⟩⟩

/-- The named points of `skelFistTouch`. -/
def handFistTouch : HandCoords :=
  ⟨⟨0.2, 0.8, 0⟩, ⟨0.2, 0.8, 2⟩, ⟨0.2, 0.8, 3⟩, ⟨0.2, 0.8, 4⟩, ⟨0.2, 0.8, 0⟩,
    ⟨0.5, 0.5, 0⟩⟩

/-- The named points of `skelOpenFar`. -/
def handOpenFar : HandCoords :=
  ⟨⟨0.5, 0.9, 1⟩, ⟨0.5, 0.9, 2⟩, ⟨0.5, 0.9, 3⟩, ⟨0.5, 0.9, 4⟩, ⟨0.5, 0.9, 0⟩,
    ⟨0.5, 0.5, 0⟩⟩

/-- The named points of `skelOpenTouch`. -/
def handOpenTouch : HandCoords :=
  ⟨⟨0.5, 0.9, 0⟩, ⟨0.5, 0.9, 2⟩, ⟨0.5, 0.9, 3⟩, ⟨0.5, 0.9, 4⟩, ⟨0.5, 0.9, 0⟩,
    ⟨0.5, 0.5, 0⟩⟩

/-- The named points of `skelMouseMove`. -/
def handMouseMove : HandCoords :=
  ⟨⟨0.5, 0.9, 1⟩, ⟨0.5, 0.9, 2⟩, ⟨0.5, 0.9, 3⟩, ⟨0.5, 0.9, 4⟩, ⟨0.5, 0.9, 0⟩,
    ⟨0.7, 0.4, 0⟩⟩

/-- The named points of `skelScroll`. -/
def handScroll : HandCoords :=
  ⟨⟨0.5, 0.9, 1⟩, ⟨0.5, 0.9, 0⟩, ⟨0.5, 0.9, 3⟩, ⟨0.5, 0.9, 4⟩, ⟨0.5, 0.9, 0⟩,
    ⟨0.5, 0.49, 0⟩⟩

/-- The named points of `skelScrollX`. -/
def handScrollX : HandCoords :=
  ⟨⟨0.5, 0.9, 1⟩, ⟨0.5, 0.9, 0⟩, ⟨0.5, 0.9, 3⟩, ⟨0.5, 0.9, 4⟩, ⟨0.5, 0.9, 0⟩,
    ⟨0.6, 0.5085, 0⟩⟩

theorem dist_z1 : get_3d_distance (⟨0.5, 0.9, 1⟩ : Point) ⟨0.5, 0.9, 0⟩ = 1 :=
  get_3d_distance_eq _ _ 1 (by norm_num) (by norm_num)

theorem dist_z2 : get_3d_distance (⟨0.5, 0.9, 2⟩ : Point) ⟨0.5, 0.9, 0⟩ = 2 :=
  get_3d_distance_eq _ _ 2 (by norm_num) (by norm_num)

theorem dist_z3 : get_3d_distance (⟨0.5, 0.9, 3⟩ : Point) ⟨0.5, 0.9, 0⟩ = 3 :=
  get_3d_distance_eq _ _ 3 (by norm_num) (by norm_num)

theorem dist_fz1 : get_3d_distance (⟨0.2, 0.8, 1⟩ : Point) ⟨0.2, 0.8, 0⟩ = 1 :=
  get_3d_distance_eq _ _ 1 (by norm_num) (by norm_num)

theorem int_trunc_intCast (n : ℤ) : int_trunc (n : ℝ) = n := by
  unfold int_trunc
  split_ifs <;> simp

theorem int_trunc_17 : int_trunc (1.7 : ℝ) = 1 := by
  unfold int_trunc
  rw [if_pos (by norm_num)]
  rw [Int.floor_eq_iff]
  constructor <;> norm_num

/-- The scroll branch of the mouse body, isolated for concrete evaluations. -/
theorem mouseBody_scroll (t : Translator) (hand : HandCoords) (pp : Point)
    (cursor_x cursor_y : ℝ)
    (hns : ¬ is_shaking hand.palm pp t.shake_sensitivity)
    (hi : ¬ get_3d_distance hand.index hand.thumb ≤ t.distance_threshold)
    (hr : ¬ get_3d_distance hand.ring hand.thumb ≤ t.distance_threshold)
    (hm : get_3d_distance hand.middle hand.thumb ≤ t.distance_threshold) :
    mouseBody t hand pp false cursor_x cursor_y =
      [MAction.wheel (-(int_trunc (t.scroll_sensitivity * (hand.palm.y - pp.y))))] := by
  simp [mouseBody, hns, hi, hr, hm]


/- Counterexamples and witnesses on the concrete data. -/

/-- C1 (counterexample): with a current fist whose palm is shaking under the
loosened threshold and whose index finger has a falling edge, the keyboard
channel emits `send "space"` even though the current skeleton is a fist: the
fist branch falls through to the finger-release checks. -/
theorem c1_counterexample_fist_sends_space :
    is_fist skelFist = some true ∧
    translate_landmarks_to_keyboard_action cT skelFist skelFistTouch =
      some [KAction.send "space"] := by
  refine ⟨is_fist_skelFist, ?_⟩
  rw [keyboard_eq cT skelFist skelFistTouch handFist handFistTouch true true rfl rfl
    is_fist_skelFist is_fist_skelFistTouch]
  have hpitd : get_3d_distance (⟨0.2, 0.8, 0⟩ : Point) ⟨0.2, 0.8, 0⟩ = 0 :=
    get_3d_distance_self _
  simp only [kbBody, kbFingers, handFist, handFistTouch]
  rw [dist_fz1, hpitd]
  norm_num [is_shaking, abs_lt, cT]

/-- C1 (witness for the amended claim), at the scenario-B data. -/
theorem c1_amended_witness :
    KAction.send "space" ∉ [KAction.send "shift+tab"] ∧
    KAction.send "enter" ∉ [KAction.send "shift+tab"] ∧
    KAction.send "backspace" ∉ [KAction.send "shift+tab"] ∧
    KAction.send "escape" ∉ [KAction.send "shift+tab"] := by
  have heval : translate_landmarks_to_keyboard_action cT skelFistLeft skelFist =
      some [KAction.send "shift+tab"] := by
    rw [keyboard_eq cT skelFistLeft skelFist handFistLeft handFist true true rfl rfl
      is_fist_skelFistLeft is_fist_skelFist]
    simp only [kbBody, handFistLeft, handFist]
    norm_num [is_shaking, abs_lt, cT]
  exact c1_amended_fist_blocks_finger_keys cT skelFistLeft skelFist handFistLeft
    handFist true rfl rfl is_fist_skelFistLeft is_fist_skelFist
    (by norm_num [is_shaking, abs_lt, cT, handFistLeft, handFist])
    [KAction.send "shift+tab"] heval

/-- C2 (witness): scenario C — the index-thumb distance is 1 now and 0 on the
previous skeleton, the current hand is not a fist, so exactly `send "space"`
is emitted. -/
theorem c2_witness_scenario_c :
    translate_landmarks_to_keyboard_action cT skelOpenFar skelOpenTouch =
      some [KAction.send "space"] := by
  have h := (c2_finger_release_priority cT skelOpenFar skelOpenTouch handOpenFar
    handOpenTouch false rfl rfl is_fist_skelOpenFar is_fist_skelOpenTouch).1
  rw [h]
  have he1 : fingerEdge cT handOpenFar handOpenTouch HandCoords.index := by
    constructor
    · rw [show get_3d_distance handOpenFar.index handOpenFar.thumb = 1 from dist_z1]
      norm_num [cT]
    · rw [show get_3d_distance handOpenTouch.index handOpenTouch.thumb = 0 from
        get_3d_distance_self _]
      norm_num [cT]
  rw [if_pos he1]

/-- C3 (witness): an open hand far from the thumb on every finger, palm moved
from (0.5, 0.5) to (0.7, 0.4) with cursor at (100, 200): the cursor moves to
(100 + 8(0.2), 200 + 8(-0.1)). -/
theorem c3_witness_cursor_move :
    translate_landmarks_to_mouse_action cT skelMouseMove skelOpenFar 100 200 =
      some [MAction.move 101.6 199.2] := by
  have h := (c3_mouse_priority cT skelMouseMove skelOpenFar handMouseMove
    ⟨0.5, 0.5, 0⟩ false 100 200 rfl rfl is_fist_skelMouseMove).1
  rw [h]
  simp only [handMouseMove]
  rw [dist_z1, dist_z2, dist_z3]
  norm_num [is_shaking, abs_lt, cT]

/-- C4 (counterexample): at a palm y-delta of 0.0085 with scroll sensitivity
200 the product is 1.7; the code truncates toward zero and scrolls by -1,
while the claim demands minus the rounding, which is -2. -/
theorem c4_counterexample_truncation_not_rounding :
    translate_landmarks_to_mouse_action cT skelScrollX skelOpenFar 0 0 =
      some [MAction.wheel (-1)] ∧
    -(round (cT.scroll_sensitivity * ((0.5085 : ℝ) - 0.5))) = (-2 : ℤ) := by
  constructor
  · rw [mouse_eq cT skelScrollX skelOpenFar handScrollX ⟨0.5, 0.5, 0⟩ false 0 0 rfl rfl
      is_fist_skelScrollX]
    rw [mouseBody_scroll cT handScrollX ⟨0.5, 0.5, 0⟩ 0 0
      (by norm_num [is_shaking, abs_lt, handScrollX, cT])
      (by rw [show get_3d_distance handScrollX.index handScrollX.thumb = 1 from dist_z1]
          norm_num [cT])
      (by rw [show get_3d_distance handScrollX.ring handScrollX.thumb = 3 from dist_z3]
          norm_num [cT])
      (by rw [show get_3d_distance handScrollX.middle handScrollX.thumb = 0 from
          get_3d_distance_self _]
          norm_num [cT])]
    rw [show cT.scroll_sensitivity * (handScrollX.palm.y - (⟨0.5, 0.5, 0⟩ : Point).y) =
      (1.7 : ℝ) from by norm_num [handScrollX, cT]]
    rw [int_trunc_17]
  · rw [show cT.scroll_sensitivity * ((0.5085 : ℝ) - 0.5) = (1.7 : ℝ) from by
      norm_num [cT]]
    rw [round_eq]
    rw [show (1.7 : ℝ) + 1 / 2 = ((2 : ℤ) : ℝ) + 0.2 from by push_cast; norm_num]
    rw [show ⌊((2 : ℤ) : ℝ) + 0.2⌋ = 2 from by
      rw [Int.floor_eq_iff]
      push_cast
      constructor <;> norm_num]

/-- C4 (witness for the amended claim): scenario D — middle fingertip on the
thumb, palm y moved down by 0.01, scroll sensitivity 200: the emitted action
is `scroll 2`. -/
theorem c4_amended_witness_scenario_d :
    translate_landmarks_to_mouse_action cT skelScroll skelOpenFar 0 0 =
      some [MAction.wheel 2] := by
  have h := c4_amended_scroll_amount cT skelScroll skelOpenFar handScroll
    ⟨0.5, 0.5, 0⟩ 0 0 rfl rfl is_fist_skelScroll
    (by norm_num [is_shaking, abs_lt, handScroll, cT])
    (by rw [show get_3d_distance handScroll.index handScroll.thumb = 1 from dist_z1]
        norm_num [cT])
    (by rw [show get_3d_distance handScroll.ring handScroll.thumb = 3 from dist_z3]
        norm_num [cT])
    (by rw [show get_3d_distance handScroll.middle handScroll.thumb = 0 from
        get_3d_distance_self _]
        norm_num [cT])
  rw [h]
  rw [show cT.scroll_sensitivity * (handScroll.palm.y - (⟨0.5, 0.5, 0⟩ : Point).y) =
    ((-2 : ℤ) : ℝ) from by push_cast; norm_num [handScroll, cT]]
  rw [int_trunc_intCast]
  norm_num

/-- C5 (witness): scenario A — current fist, previous open hand: the press of
`alt+tab` is emitted exactly once and no release is emitted. -/
theorem c5_witness_scenario_a :
    ∃ acts, translate_landmarks_to_keyboard_action cT skelFist skelOpen = some acts ∧
      acts.count (KAction.press "alt+tab") = 1 ∧
      acts.count (KAction.release "alt+tab") = 0 := by
  obtain ⟨acts, h1, h2, h3⟩ := c5_alt_tab_latch cT skelFist skelOpen handFist handOpen
    true false rfl rfl is_fist_skelFist is_fist_skelOpen
  refine ⟨acts, h1, ?_, ?_⟩
  · rw [h2]
    norm_num
  · rw [h3]
    norm_num

/-- C6 (witness): scenario B — current fist, previous fist, palm.x moved from
0.5 to 0.3, not shaking: exactly `send "shift+tab"` is emitted. -/
theorem c6_witness_scenario_b :
    translate_landmarks_to_keyboard_action cT skelFistLeft skelFist =
      some [KAction.send "shift+tab"] := by
  have h := c6_fist_navigation cT skelFistLeft skelFist handFistLeft handFist true
    rfl rfl is_fist_skelFistLeft is_fist_skelFist
    (by norm_num [is_shaking, abs_lt, cT, handFistLeft, handFist])
  rw [h]
  norm_num [handFistLeft, handFist]

/-- C8 (witness): the concrete fist skeleton satisfies the characterization. -/
theorem c8_witness_concrete_fist : is_fist skelFist = some true :=
  ((c8_is_fist_characterization skelFist rfl).1).mpr
    (by norm_num [skelFist, mkHand])

/-- C9 (witness for the amended claim): both translate methods succeed on the
concrete 21-point skeletons. -/
theorem c9_amended_witness :
    (translate_landmarks_to_keyboard_action cT skelFist skelOpen).isSome ∧
    (translate_landmarks_to_mouse_action cT skelFist skelOpen 0 0).isSome := by
  have h := c9_amended_index_safety cT skelFist skelOpen 0 0 rfl (Or.inl rfl)
  exact ⟨h.1, h.2.1⟩

end
